import Mathlib

/-!
Verification of the Ubike-ops core against its design spec.

Shallow embedding of the pipeline's algorithmic core:
* `src/prediction.py` — trend estimation (`calculate_trend`) and forecasting
  (`predict_demand`) over a station's stored history;
* `src/rebalancing.py` — the rebalance advisor (`compute_rebalance`);
* `src/database.py` / `src/analysis.py` — retention (`cleanup_old_data`) and the
  latest-snapshot query (`get_current_status`);
* `src/collector.py` — the feed poll (`fetch_data` / `job`).

Modelling conventions, used throughout:
* DB INTEGER columns (`rent`, `return_count`) are `ℤ`; Python floats computed
  from them (slopes, severities, priorities, ratio parameters) are exact `ℚ`
  (the float literals 0.4 / 0.6 of the source become `2/5` / `3/5`);
* timestamps are modelled by a totally ordered numeric value, faithful to the
  chronological = lexicographic ordering of the ISO TEXT column; a timestamp
  that pandas fails to parse (`NaT`) is `Option.none`;
* a Python function that can raise returns `Except`; one that catches every
  exception and substitutes a sentinel is total;
* SQL result sets are lists in the order the query produces.

Batteries marks the `Rat` field operations irreducible; the file restores
default reducibility so that concrete rational arithmetic evaluates under
`decide`.
-/

set_option allowUnsafeReducibility true in
attribute [semireducible] Rat.add Rat.mul Rat.sub Rat.inv Rat.div

/-! ## prediction.py -/

/-- One row of `stations_realtime` as read by prediction.py's per-station query
(`SELECT collection_time, rent, return_count … ORDER BY collection_time DESC`):
`time` is the `pd.to_datetime` parse of the TEXT timestamp in seconds
(`none` models `NaT`); `rent` / `ret` are the INTEGER columns `rent` and
`return_count` (available bikes / empty docks). -/
structure HRow where
  time : Option ℚ
  rent : ℤ
  ret : ℤ
deriving DecidableEq

/-- `_get_recent_points(station_id, max_points)`: `hist` is the station's rows
in the order of the `ORDER BY collection_time DESC` query; the function takes
the `max_points` most recent rows (`LIMIT`), re-sorts them oldest-first
(`sort_values`; realised by reversing the descending prefix) and drops rows
whose timestamp failed to parse (`dropna`, which commutes with the reversal). -/
def get_recent_points (hist : List HRow) (max_points : ℕ) : List HRow :=
  ((hist.take max_points).filter (fun r => r.time.isSome)).reverse

/-- The local-slope loop of `calculate_trend`: for every consecutive pair of the
oldest-first rows, `Δt` in minutes (`total_seconds() / 60`); pairs with
`Δt ≤ 0` are skipped, the others contribute `(rent₂ − rent₁) / Δt`. -/
def localSlopes (df : List HRow) : List ℚ :=
  (df.zip df.tail).filterMap (fun p =>
    let dt_min : ℚ := ((p.2.time.getD 0) - (p.1.time.getD 0)) / 60
    if dt_min ≤ 0 then none
    else some (((p.2.rent : ℚ) - (p.1.rent : ℚ)) / dt_min))

/-- The tuple `(slope, current_bikes, capacity, points_used)` returned by
`calculate_trend`. -/
structure TrendResult where
  slope : ℚ
  current_bikes : ℤ
  capacity : ℤ
  points_used : ℕ
deriving DecidableEq

/-- `calculate_trend(station_id, max_points)`. With fewer than 3 usable points
the code re-queries the single most recent row (`LIMIT 1` over the same DESC
order, hence `hist.head?`) and returns slope 0 with `points_used = len(df)`;
with no row at all it returns `(0.0, 0, 0, 0)`. Otherwise the slope is the mean
of the local slopes (0.0 when every pair was skipped), and current/capacity come
from the newest usable row (`df.iloc[-1]`). -/
def calculate_trend (hist : List HRow) (max_points : ℕ) : TrendResult :=
  let df := get_recent_points hist max_points
  if df.length < 3 then
    match hist.head? with
    | none => ⟨0, 0, 0, 0⟩
    | some latest => ⟨0, latest.rent, latest.rent + latest.ret, df.length⟩
  else
    let slopes := localSlopes df
    let slope := if slopes.isEmpty then 0 else slopes.sum / (slopes.length : ℚ)
    let last := df.getLast?.getD ⟨none, 0, 0⟩
    ⟨slope, last.rent, last.rent + last.ret, df.length⟩

/-- Python's built-in `round` on an exact rational: round half to even. -/
def pyRound (q : ℚ) : ℤ :=
  let f := ⌊q⌋
  let r := q - f
  if r < 1/2 then f
  else if 1/2 < r then f + 1
  else if f % 2 = 0 then f else f + 1

/-- The model-information dict returned by `predict_demand` alongside the
predicted count. -/
structure PredictInfo where
  slope : ℚ
  current : ℤ
  capacity : ℤ
  points_used : ℕ
deriving DecidableEq

/-- `predict_demand(station_id, minutes_ahead, max_points)`: extrapolate
`current + slope * minutes_ahead`, clamp to `[0, capacity]`
(`max(0, min(capacity, predicted))`), round (`int(round(…))`). -/
def predict_demand (hist : List HRow) (minutes_ahead : ℤ) (max_points : ℕ) :
    ℤ × PredictInfo :=
  let t := calculate_trend hist max_points
  let predicted : ℚ := (t.current_bikes : ℚ) + t.slope * (minutes_ahead : ℚ)
  let clamped : ℚ := max 0 (min (t.capacity : ℚ) predicted)
  (pyRound clamped, ⟨t.slope, t.current_bikes, t.capacity, t.points_used⟩)

/-- The history of §8's worked example, in query (newest-first) order: pickup
series 5, 6, 7, 8 at 1-minute spacing (times in seconds), each with capacity
10. -/
def exampleHist : List HRow :=
  [⟨some 180, 8, 2⟩, ⟨some 120, 7, 3⟩, ⟨some 60, 6, 4⟩, ⟨some 0, 5, 5⟩]

/-! ## rebalancing.py -/

/-- One row of the snapshot DataFrame handed to `compute_rebalance` (the output
of `get_current_status()`): the five required fields. `rent` / `ret` come from
the DB INTEGER columns (`save_data` coerces them to int on write), so the
numeric coercion `pd.to_numeric(...).fillna(0)` of the source is the
identity on them and capacity is `rent + ret`. -/
structure SnapRow where
  sno : String
  sna : String
  sarea : String
  rent : ℤ
  ret : ℤ
deriving DecidableEq

/-- The snapshot DataFrame: its column names (checked against the required set
before any row is touched) and its rows. -/
structure Snapshot where
  cols : List String
  rows : List SnapRow
deriving DecidableEq

/-- The required columns of `compute_rebalance`. -/
def required_cols : List String := ["sno", "sna", "sarea", "rent", "return_count"]

/-- Python's built-in `int()` on an exact rational: truncation toward zero. -/
def pyInt (q : ℚ) : ℤ := if 0 ≤ q then ⌊q⌋ else ⌈q⌉

/-- The outcome of the `predict_demand(sno, …)` call for one station:
`.error` models a raised exception (caught by the advisor's `try/except`),
`.ok` the returned pair. The advisor is parameterised by this function; the
DB access inside prediction.py, and the `minutes_ahead` / `max_points`
arguments it closes over, are abstracted into it. -/
abbrev PredictOutcome := Except Unit (ℤ × PredictInfo)

/-- One emitted recommendation row. `need` is the `need_add` column on the
supply list and the `need_remove` column on the removal list. -/
structure RebRec where
  sno : String
  sna : String
  sarea : String
  current_bikes : ℤ
  predicted_bikes : ℤ
  capacity : ℤ
  need : ℤ
  slope : ℚ
  severity : ℚ
  priority : ℚ
  forecast_horizon_min : ℤ
  points_used : ℕ
deriving DecidableEq

/-- The supply (empty-risk) half of the advisor's loop body for one station:
`None` models `continue`. Mirrors rebalancing.py lines 53-108: a predict
exception, `points_used < 2` or `capacity <= 0` skip the station; then
`predicted_bikes = max(0, min(capacity, pred))`; if
`predicted_bikes <= empty_threshold`, `target = max(2, int(capacity *
target_low_ratio))`, `need_add = max(0, target - predicted_bikes)`,
`severity = 1 - predicted_bikes/capacity`,
`priority = 0.4*|slope| + 0.6*severity`, emitted only when `need_add > 0`. -/
def supplyRow (predict : String → PredictOutcome) (minutes_ahead empty_threshold : ℤ)
    (target_low_ratio : ℚ) (r : SnapRow) : Option RebRec :=
  match predict r.sno with
  | .error _ => none
  | .ok (pred_bikes, info) =>
    if info.points_used < 2 then none
    else
      let capacity := r.rent + r.ret
      if capacity ≤ 0 then none
      else
        let predicted_bikes := max 0 (min capacity pred_bikes)
        if predicted_bikes ≤ empty_threshold then
          let target := max 2 (pyInt ((capacity : ℚ) * target_low_ratio))
          let need_add := max 0 (target - predicted_bikes)
          let severity : ℚ := 1 - (predicted_bikes : ℚ) / (capacity : ℚ)
          let priority : ℚ := 2/5 * |info.slope| + 3/5 * severity
          if 0 < need_add then
            some ⟨r.sno, r.sna, r.sarea, r.rent, predicted_bikes, capacity, need_add,
              info.slope, severity, priority, minutes_ahead, info.points_used⟩
          else none
        else none

/-- The removal (full-risk) half of the loop body, rebalancing.py lines
110-136: `predicted_empty_slots = capacity - predicted_bikes`; if at most
`full_threshold`, `target = max(0, min(capacity - 2, int(capacity *
target_high_ratio)))`, `need_remove = max(0, predicted_bikes - target)`,
`severity = 1 - predicted_empty_slots/capacity`, priority as on the supply
side, emitted only when `need_remove > 0`. -/
def removeRow (predict : String → PredictOutcome) (minutes_ahead full_threshold : ℤ)
    (target_high_ratio : ℚ) (r : SnapRow) : Option RebRec :=
  match predict r.sno with
  | .error _ => none
  | .ok (pred_bikes, info) =>
    if info.points_used < 2 then none
    else
      let capacity := r.rent + r.ret
      if capacity ≤ 0 then none
      else
        let predicted_bikes := max 0 (min capacity pred_bikes)
        let predicted_empty_slots := capacity - predicted_bikes
        if predicted_empty_slots ≤ full_threshold then
          let target := max 0 (min (capacity - 2) (pyInt ((capacity : ℚ) * target_high_ratio)))
          let need_remove := max 0 (predicted_bikes - target)
          let severity : ℚ := 1 - (predicted_empty_slots : ℚ) / (capacity : ℚ)
          let priority : ℚ := 2/5 * |info.slope| + 3/5 * severity
          if 0 < need_remove then
            some ⟨r.sno, r.sna, r.sarea, r.rent, predicted_bikes, capacity, need_remove,
              info.slope, severity, priority, minutes_ahead, info.points_used⟩
          else none
        else none

/-- The comparison of `sort_values(["priority", "need"], ascending=[False,
False])`: `a` may come before `b` iff `a`'s key (priority, then need) is at
least `b`'s. No further key is compared: rows with equal priority and need
are in no particular relative order in the source (the embedding's stable
insertion sort keeps their encounter order, as numpy's sort does on small
frames). -/
def recGE (a b : RebRec) : Prop :=
  b.priority < a.priority ∨ (a.priority = b.priority ∧ b.need ≤ a.need)

instance decidableRecGE : DecidableRel recGE := fun a b => by
  unfold recGE
  infer_instance

instance transRecGE : IsTrans RebRec recGE := by
  constructor
  intro a b c hab hbc
  rcases hab with h1 | ⟨h1, h2⟩ <;> rcases hbc with h3 | ⟨h3, h4⟩
  · exact Or.inl (lt_trans h3 h1)
  · exact Or.inl (h3 ▸ h1)
  · exact Or.inl (lt_of_lt_of_eq h3 h1.symm)
  · exact Or.inr ⟨h1.trans h3, le_trans h4 h2⟩

instance totalRecGE : IsTotal RebRec recGE := by
  constructor
  intro a b
  rcases lt_trichotomy a.priority b.priority with h | h | h
  · exact Or.inr (Or.inl h)
  · rcases le_total a.need b.need with h2 | h2
    · exact Or.inr (Or.inr ⟨h.symm, h2⟩)
    · exact Or.inl (Or.inr ⟨h, h2⟩)
  · exact Or.inl (Or.inl h)

/-- `sort_values(..., ascending=[False, False]).head(top_k)` on an emitted
list. -/
def sortTruncate (l : List RebRec) (top_k : ℕ) : List RebRec :=
  (l.insertionSort recGE).take top_k

/-- `compute_rebalance(snapshot_df, minutes_ahead, max_points, empty_threshold,
full_threshold, target_low_ratio, target_high_ratio, top_k)`: early return of
two empty frames on an empty snapshot, a missing required column, or no
station with positive capacity; otherwise one pass over the positive-capacity
rows appending to the two lists (equivalently, one `filterMap` per list),
then sort and truncate each list. -/
def compute_rebalance (predict : String → PredictOutcome) (snapshot_df : Snapshot)
    (minutes_ahead empty_threshold full_threshold : ℤ)
    (target_low_ratio target_high_ratio : ℚ) (top_k : ℕ) :
    List RebRec × List RebRec :=
  if snapshot_df.rows.isEmpty then ([], [])
  else if ¬ (required_cols.all (fun c => snapshot_df.cols.contains c)) then ([], [])
  else
    let df := snapshot_df.rows.filter (fun r => decide (0 < r.rent + r.ret))
    if df.isEmpty then ([], [])
    else
      (sortTruncate
          (df.filterMap (supplyRow predict minutes_ahead empty_threshold target_low_ratio))
          top_k,
        sortTruncate
          (df.filterMap (removeRow predict minutes_ahead full_threshold target_high_ratio))
          top_k)

/-- `predict_ok o = true` iff the modelled `predict_demand` call returned
without raising. -/
def predict_ok (o : PredictOutcome) : Bool :=
  match o with
  | .ok _ => true
  | .error _ => false

/-- The snapshot restricted to the stations whose `predict_demand` call
succeeds (used to state that the advisor skips exactly the failing
stations). -/
def keepOkRows (predict : String → PredictOutcome) (snapshot_df : Snapshot) : Snapshot :=
  ⟨snapshot_df.cols, snapshot_df.rows.filter (fun r => predict_ok (predict r.sno))⟩

/-! ## database.py / analysis.py -/

/-- One row of the `stations_realtime` table as the storage-level queries see
it: `id` the INTEGER PRIMARY KEY (insertion id), `collection_time` the
TEXT timestamp, modelled by an integer faithful to the lexicographic =
chronological ordering of the ISO strings (days for the retention claims,
any fixed unit elsewhere). A table is the list of rows in insertion order. -/
structure DbRow where
  id : ℕ
  sno : String
  collection_time : ℤ
  rent : ℤ
  ret : ℤ
deriving DecidableEq

/-- `get_current_status()` (analysis.py): the self-join of `stations_realtime`
with the per-`sno` `MAX(collection_time)` groups — a row is returned iff its
`collection_time` equals the maximum over the rows of the same station, i.e.
iff no row of the same station is strictly later. Every row tied at the
maximum satisfies the join condition and is returned. -/
def get_current_status (tbl : List DbRow) : List DbRow :=
  tbl.filter (fun r =>
    decide (∀ q ∈ tbl, q.sno = r.sno → q.collection_time ≤ r.collection_time))

/-- `cleanup_old_data(days)` (database.py): the DELETE keeps exactly the rows
with `collection_time ≥ now − days`. The second component is the Python
function's return value: it has no return statement, so it is `none`
(Python `None`) — the statement's rowcount is only printed (see
`cleanup_removed_count`). -/
def cleanup_old_data (now days : ℤ) (tbl : List DbRow) : List DbRow × Option ℕ :=
  (tbl.filter (fun r => decide (¬ r.collection_time < now - days)), none)

/-- The `result.rowcount` that `cleanup_old_data` prints: how many rows the
DELETE removed. -/
def cleanup_removed_count (now days : ℤ) (tbl : List DbRow) : ℕ :=
  (tbl.filter (fun r => decide (r.collection_time < now - days))).length

/-! ## collector.py -/

/-- The exceptions the modelled collector can raise past its own frame. -/
inductive PyExc where
  | attributeError
deriving DecidableEq

deriving instance DecidableEq for Except

/-- The fields of one JSON object of the feed body, as the normalisation loop
reads them: `.error` in a raw numeric field models an `int()` / `float()`
conversion that would raise (caught per-field, default substituted);
`update_parsed` is the result of `parse_update_time` on the object's
`mday`/`updateTime` value (`none` = unparseable; the strptime string formats
themselves are abstracted to their outcome). -/
structure ApiFields where
  sno : Option String
  sna : Option String
  sarea : Option String
  rent_raw : Except Unit ℤ
  ret_raw : Except Unit ℤ
  lat_raw : Except Unit ℚ
  lng_raw : Except Unit ℚ
  update_parsed : Option ℤ
deriving DecidableEq

/-- One element yielded by iterating the decoded JSON body: a JSON object, or
any non-object value (an element of an array of scalars — or a key string,
since iterating a JSON object in Python yields its keys). -/
inductive ApiItem where
  | dict (fields : ApiFields)
  | nondict
deriving DecidableEq

/-- The outcome of `session.get(API_URL)`: a raised request exception, or a
response with a status code and a body whose JSON decoding either fails
(`.error`) or yields an iterable of items. -/
inductive FeedResponse where
  | netError
  | response (status : ℕ) (body : Except Unit (List ApiItem))
deriving DecidableEq

/-- One normalised record appended by the loop (collector.py lines 92-125).
The numeric fields default to 0 when their conversion raises; latitude and
longitude share one try, so either failing zeroes both. The `"time": now`
field (the poll clock) is not modelled. -/
structure FeedRecord where
  sno : Option String
  sna : Option String
  sarea : Option String
  lat : ℚ
  lng : ℚ
  rent : ℤ
  ret : ℤ
  update_time : Option ℤ
deriving DecidableEq

/-- The body of the normalisation loop for one item. On a JSON object the
per-field try/excepts make it total; on a non-object item the attribute
access `s.get(...)` (collector.py line 95 onward, outside every try) raises
`AttributeError`. -/
def record_of_item (it : ApiItem) : Except PyExc FeedRecord :=
  match it with
  | .nondict => .error .attributeError
  | .dict f =>
    let rent := match f.rent_raw with
      | .ok z => z
      | .error _ => 0
    let ret := match f.ret_raw with
      | .ok z => z
      | .error _ => 0
    let latlng : ℚ × ℚ := match f.lat_raw, f.lng_raw with
      | .ok a, .ok b => (a, b)
      | _, _ => (0, 0)
    .ok ⟨f.sno, f.sna, f.sarea, latlng.1, latlng.2, rent, ret, f.update_parsed⟩

/-- `fetch_data(session)` (collector.py lines 62-132): a request exception, a
non-200 status or a JSON decoding error each return `None` (caught); then the
loop normalises the items in order — raising out of `fetch_data` at the first
non-object item — and an empty record list returns `None` rather than a
DataFrame. -/
def fetch_data (resp : FeedResponse) : Except PyExc (Option (List FeedRecord)) :=
  match resp with
  | .netError => .ok none
  | .response status body =>
    if status ≠ 200 then .ok none
    else
      match body with
      | .error _ => .ok none
      | .ok data =>
        match data.mapM record_of_item with
        | .error e => .error e
        | .ok records => if records.isEmpty then .ok none else .ok (some records)

/-- `job()` (collector.py lines 135-148): fetch, then save unless the frame is
`None` or empty. `.ok none` = nothing persisted this cycle; `.ok (some b)` =
batch `b` handed to `save_data`; `.error` = an exception propagated out of
`job` (to the scheduler). -/
def job (resp : FeedResponse) : Except PyExc (Option (List FeedRecord)) :=
  match fetch_data resp with
  | .error e => .error e
  | .ok none => .ok none
  | .ok (some df) => if df.isEmpty then .ok none else .ok (some df)

/-! ## Concrete inputs used by witnesses and counterexamples -/

/-- A predict stub: every station forecast 0 bikes, slope 0, capacity 7,
5 points used. -/
def cexPredict : String → PredictOutcome :=
  fun _ => .ok (0, ⟨0, 0, 7, 5⟩)

/-- One station of capacity 7 with all bikes forecast gone. -/
def cexSnap : Snapshot :=
  ⟨required_cols, [⟨"S1", "N1", "A1", 0, 7⟩]⟩

/-- Two identical stations (capacity 7, forecast 0), station "B" listed before
station "A". -/
def cexSnap2 : Snapshot :=
  ⟨required_cols, [⟨"B", "NB", "AB", 0, 7⟩, ⟨"A", "NA", "AA", 0, 7⟩]⟩

/-- Two rows of one station "S" tied at the maximal collection_time. -/
def tieTable : List DbRow :=
  [⟨0, "S", 10, 1, 1⟩, ⟨1, "S", 10, 2, 2⟩]

/-- A retention scenario at now = 100 (days): one row 6 days old, one row 1 day
old. -/
def retentionTable : List DbRow :=
  [⟨0, "X", 94, 1, 1⟩, ⟨1, "Y", 99, 2, 2⟩]

/-- A 200 response whose JSON body is an array holding one non-object value
(equally: any JSON-object body, whose iteration yields key strings). -/
def crashingResponse : FeedResponse :=
  .response 200 (.ok [ApiItem.nondict])

/-! ## Helper lemmas -/

theorem pyRound_nonneg {q : ℚ} (h : 0 ≤ q) : 0 ≤ pyRound q := by
  unfold pyRound
  dsimp only
  have hf : (0 : ℤ) ≤ ⌊q⌋ := Int.le_floor.2 (by exact_mod_cast h)
  split_ifs <;> omega

theorem pyRound_le {q : ℚ} {c : ℤ} (h : q ≤ (c : ℚ)) : pyRound q ≤ c := by
  unfold pyRound
  dsimp only
  have hfc : ⌊q⌋ ≤ c := by
    have := Int.floor_le_floor h
    simpa using this
  have hlow : (⌊q⌋ : ℚ) ≤ q := Int.floor_le q
  have hstep : (⌊q⌋ : ℚ) < q → ⌊q⌋ + 1 ≤ c := by
    intro hlt
    have h1 : (⌊q⌋ : ℚ) < (c : ℚ) := lt_of_lt_of_le hlt h
    have h2 : ⌊q⌋ < c := by exact_mod_cast h1
    omega
  split_ifs with h1 h2 h3
  · exact hfc
  · exact hstep (by linarith)
  · exact hfc
  · refine hstep ?_
    have : (1 : ℚ)/2 ≤ q - ⌊q⌋ := not_lt.1 h1
    linarith

theorem pyRound_intCast (n : ℤ) : pyRound (n : ℚ) = n := by
  unfold pyRound
  rw [Int.floor_intCast]
  norm_num

/-! ## C1 -/

/-- C1: for every station history whose latest capacity is positive and every
horizon, the predicted pickup count returned by `predict_demand` — the
extrapolation `current + slope * minutes_ahead` clamped to `[0, capacity]` and
rounded to an integer — lies in the closed interval `[0, capacity]`. -/
theorem predict_demand_in_range (hist : List HRow) (minutes_ahead : ℤ) (max_points : ℕ)
    (hcap : 0 < (predict_demand hist minutes_ahead max_points).2.capacity) :
    0 ≤ (predict_demand hist minutes_ahead max_points).1 ∧
      (predict_demand hist minutes_ahead max_points).1 ≤
        (predict_demand hist minutes_ahead max_points).2.capacity := by
  unfold predict_demand at *
  refine ⟨pyRound_nonneg (le_max_left _ _), pyRound_le ?_⟩
  have hc : (0 : ℚ) ≤ ((calculate_trend hist max_points).capacity : ℚ) := by
    exact_mod_cast le_of_lt hcap
  exact max_le hc (min_le_left _ _)

/-- C1 witness: the bound instantiated at a one-row history of capacity 10,
horizon 30. -/
theorem predict_demand_in_range_witness :
    0 ≤ (predict_demand [⟨some 0, 5, 5⟩] 30 30).1 ∧
      (predict_demand [⟨some 0, 5, 5⟩] 30 30).1 ≤
        (predict_demand [⟨some 0, 5, 5⟩] 30 30).2.capacity :=
  predict_demand_in_range [⟨some 0, 5, 5⟩] 30 30 (by decide)

/-! ## C2 -/

/-- C2: for a station with fewer than 3 usable history points (after dropping
null-timestamp rows), `calculate_trend` returns slope 0 with the latest point's
pickup count and capacity and `points_used` = the number of surviving points,
and the forecast then equals the current pickup count for every horizon. -/
theorem calculate_trend_few_points (hist : List HRow) (max_points : ℕ)
    (latest : HRow) (rest : List HRow) (hh : hist = latest :: rest)
    (hfew : (get_recent_points hist max_points).length < 3)
    (hrent : 0 ≤ latest.rent) (hret : 0 ≤ latest.ret) :
    calculate_trend hist max_points =
        ⟨0, latest.rent, latest.rent + latest.ret,
          (get_recent_points hist max_points).length⟩ ∧
      ∀ minutes_ahead : ℤ,
        (predict_demand hist minutes_ahead max_points).1 = latest.rent := by
  have hhead : hist.head? = some latest := by rw [hh]; rfl
  have htrend : calculate_trend hist max_points =
      ⟨0, latest.rent, latest.rent + latest.ret,
        (get_recent_points hist max_points).length⟩ := by
    unfold calculate_trend
    rw [if_pos hfew, hhead]
  refine ⟨htrend, fun m => ?_⟩
  unfold predict_demand
  rw [htrend]
  have h1 : ((latest.rent : ℚ)) + (TrendResult.mk 0 latest.rent (latest.rent + latest.ret)
      (get_recent_points hist max_points).length).slope * (m : ℚ) = (latest.rent : ℚ) := by
    simp
  have hmin : min (((latest.rent + latest.ret : ℤ)) : ℚ) ((latest.rent : ℚ)) =
      (latest.rent : ℚ) := by
    refine min_eq_right ?_
    have hq : (0 : ℚ) ≤ (latest.ret : ℚ) := by exact_mod_cast hret
    push_cast
    linarith
  have hmax : max (0 : ℚ) ((latest.rent : ℚ)) = (latest.rent : ℚ) :=
    max_eq_right (by exact_mod_cast hrent)
  simp only [h1]
  push_cast at hmin ⊢
  rw [hmin, hmax]
  exact pyRound_intCast _

/-- C2 witness: a single-point history (4 bikes, 6 docks): slope 0,
points_used 1, and the 30-minute forecast equals the current 4 bikes. -/
theorem calculate_trend_few_points_witness :
    calculate_trend [⟨some 0, 4, 6⟩] 30 =
        ⟨0, 4, 4 + 6, (get_recent_points [⟨some 0, 4, 6⟩] 30).length⟩ ∧
      ∀ minutes_ahead : ℤ,
        (predict_demand [⟨some 0, 4, 6⟩] minutes_ahead 30).1 = 4 :=
  calculate_trend_few_points [⟨some 0, 4, 6⟩] 30 ⟨some 0, 4, 6⟩ [] rfl
    (by decide) (by decide) (by decide)

/-! ## C3 -/

/-- C3: with at least 3 usable history points, the slope returned by
`calculate_trend` is the arithmetic mean of the local slopes
`(pickup[i] − pickup[i−1]) / Δt_minutes` over consecutive pairs, pairs with
`Δt ≤ 0` skipped (whenever at least one pair survives the skipping); in
particular, on the pickup series 5, 6, 7, 8 at 1-minute spacing the slope is
1. -/
theorem calculate_trend_mean_slope :
    (∀ (hist : List HRow) (max_points : ℕ),
        3 ≤ (get_recent_points hist max_points).length →
        localSlopes (get_recent_points hist max_points) ≠ [] →
        (calculate_trend hist max_points).slope =
          (localSlopes (get_recent_points hist max_points)).sum /
            ((localSlopes (get_recent_points hist max_points)).length : ℚ)) ∧
      (calculate_trend exampleHist 30).slope = 1 := by
  constructor
  · intro hist mp h3 hne
    unfold calculate_trend
    rw [if_neg (by omega)]
    simp [hne]
  · decide

/-- C3 witness: the mean-of-local-slopes equation instantiated at the
4-point example history. -/
theorem calculate_trend_mean_slope_witness :
    (calculate_trend exampleHist 30).slope =
      (localSlopes (get_recent_points exampleHist 30)).sum /
        ((localSlopes (get_recent_points exampleHist 30)).length : ℚ) :=
  calculate_trend_mean_slope.1 exampleHist 30 (by decide) (by decide)

/-! ## C4 and C5: shared rebalancing lemmas -/

theorem supplyRow_fields {predict : String → PredictOutcome}
    {minutes_ahead empty_threshold : ℤ} {target_low_ratio : ℚ}
    {r : SnapRow} {rec : RebRec}
    (h : supplyRow predict minutes_ahead empty_threshold target_low_ratio r = some rec) :
    rec.need =
      max 0 (max 2 (pyInt ((rec.capacity : ℚ) * target_low_ratio)) - rec.predicted_bikes) := by
  unfold supplyRow at h
  cases hp : predict r.sno with
  | error e => rw [hp] at h; exact absurd h (by simp)
  | ok v =>
    obtain ⟨pred_bikes, info⟩ := v
    rw [hp] at h
    dsimp only at h
    split_ifs at h
    cases h
    rfl

theorem removeRow_fields {predict : String → PredictOutcome}
    {minutes_ahead full_threshold : ℤ} {target_high_ratio : ℚ}
    {r : SnapRow} {rec : RebRec}
    (h : removeRow predict minutes_ahead full_threshold target_high_ratio r = some rec) :
    rec.need =
      max 0 (rec.predicted_bikes -
        max 0 (min (rec.capacity - 2) (pyInt ((rec.capacity : ℚ) * target_high_ratio)))) := by
  unfold removeRow at h
  cases hp : predict r.sno with
  | error e => rw [hp] at h; exact absurd h (by simp)
  | ok v =>
    obtain ⟨pred_bikes, info⟩ := v
    rw [hp] at h
    dsimp only at h
    split_ifs at h
    cases h
    rfl

theorem mem_sortTruncate {rec : RebRec} {l : List RebRec} {top_k : ℕ}
    (h : rec ∈ sortTruncate l top_k) : rec ∈ l := by
  unfold sortTruncate at h
  have h1 : rec ∈ l.insertionSort recGE := (List.take_sublist _ _).subset h
  exact (List.mem_insertionSort recGE).1 h1

theorem sortTruncate_sorted (l : List RebRec) (top_k : ℕ) :
    (sortTruncate l top_k).Sorted recGE ∧ (sortTruncate l top_k).length ≤ top_k := by
  constructor
  · exact (List.sorted_insertionSort recGE l).sublist (List.take_sublist _ _)
  · exact List.length_take_le _ _

theorem compute_rebalance_shape (predict : String → PredictOutcome)
    (snapshot_df : Snapshot) (minutes_ahead empty_threshold full_threshold : ℤ)
    (target_low_ratio target_high_ratio : ℚ) (top_k : ℕ) :
    ∃ rows : List SnapRow,
      compute_rebalance predict snapshot_df minutes_ahead empty_threshold
          full_threshold target_low_ratio target_high_ratio top_k =
        (sortTruncate
            (rows.filterMap (supplyRow predict minutes_ahead empty_threshold target_low_ratio))
            top_k,
          sortTruncate
            (rows.filterMap (removeRow predict minutes_ahead full_threshold target_high_ratio))
            top_k) := by
  unfold compute_rebalance
  by_cases h1 : snapshot_df.rows.isEmpty
  · refine ⟨[], ?_⟩
    rw [if_pos h1]
    simp [sortTruncate]
  · rw [if_neg h1]
    by_cases h2 : required_cols.all (fun c => snapshot_df.cols.contains c)
    · rw [if_neg (not_not_intro h2)]
      dsimp only
      by_cases h3 : (snapshot_df.rows.filter (fun r => decide (0 < r.rent + r.ret))).isEmpty
      · refine ⟨[], ?_⟩
        rw [if_pos h3]
        simp [sortTruncate]
      · refine ⟨snapshot_df.rows.filter (fun r => decide (0 < r.rent + r.ret)), ?_⟩
        rw [if_neg h3]
    · refine ⟨[], ?_⟩
      rw [if_pos h2]
      simp [sortTruncate]

/-! ## C4 -/

/-- C4 counterexample: capacity 7 with `target_low_ratio = 2/5` and forecast
0. The code's empty-risk target is `max(2, int(7 * 0.4)) = max(2, 2) = 2`
(so `need_add = 2`), while the claim's round-to-nearest target is
`max(2, round(2.8)) = 3` (which would give `need_add = 3`): `int()` truncates,
it does not round. -/
theorem rebalance_target_truncates_cex :
    ((compute_rebalance cexPredict cexSnap 30 1 (-1000) (2/5) (3/5) 20).1.map
        RebRec.need) = [2] ∧
      max 2 (pyRound ((7 : ℚ) * (2/5))) = 3 := by decide

/-- C4 (amended): the empty-risk target is `max(2, int(capacity ×
targetLowRatio))` and the full-risk target is `int(capacity ×
targetHighRatio)` clamped by `min (capacity − 2)` then `max 0`, where `int` is
Python truncation toward zero (not rounding to nearest): every emitted
recommendation's `need_add` (resp. `need_remove`) is the gap between the
forecast and that truncation-based target. -/
theorem rebalance_targets_floor (predict : String → PredictOutcome)
    (snapshot_df : Snapshot) (minutes_ahead empty_threshold full_threshold : ℤ)
    (target_low_ratio target_high_ratio : ℚ) (top_k : ℕ) (rec : RebRec) :
    (rec ∈ (compute_rebalance predict snapshot_df minutes_ahead empty_threshold
          full_threshold target_low_ratio target_high_ratio top_k).1 →
        rec.need =
          max 0 (max 2 (pyInt ((rec.capacity : ℚ) * target_low_ratio)) -
            rec.predicted_bikes)) ∧
      (rec ∈ (compute_rebalance predict snapshot_df minutes_ahead empty_threshold
          full_threshold target_low_ratio target_high_ratio top_k).2 →
        rec.need =
          max 0 (rec.predicted_bikes -
            max 0 (min (rec.capacity - 2)
              (pyInt ((rec.capacity : ℚ) * target_high_ratio))))) := by
  obtain ⟨rows, hshape⟩ := compute_rebalance_shape predict snapshot_df minutes_ahead
    empty_threshold full_threshold target_low_ratio target_high_ratio top_k
  rw [hshape]
  constructor
  · intro hm
    obtain ⟨r, hr, hsome⟩ := List.mem_filterMap.1 (mem_sortTruncate hm)
    exact supplyRow_fields hsome
  · intro hm
    obtain ⟨r, hr, hsome⟩ := List.mem_filterMap.1 (mem_sortTruncate hm)
    exact removeRow_fields hsome

/-- C4 witness: the truncation-based need equation instantiated at the one
emitted recommendation of the capacity-7 scenario. -/
theorem rebalance_targets_floor_witness :
    ((compute_rebalance cexPredict cexSnap 30 1 (-1000) (2/5) (3/5) 20).1.head?.getD
        ⟨"", "", "", 0, 0, 0, 0, 0, 0, 0, 0, 0⟩ ∈
        (compute_rebalance cexPredict cexSnap 30 1 (-1000) (2/5) (3/5) 20).1 →
      ((compute_rebalance cexPredict cexSnap 30 1 (-1000) (2/5) (3/5) 20).1.head?.getD
          ⟨"", "", "", 0, 0, 0, 0, 0, 0, 0, 0, 0⟩).need =
        max 0 (max 2 (pyInt
            ((((compute_rebalance cexPredict cexSnap 30 1 (-1000) (2/5) (3/5) 20).1.head?.getD
              ⟨"", "", "", 0, 0, 0, 0, 0, 0, 0, 0, 0⟩).capacity : ℚ) * (2/5))) -
          ((compute_rebalance cexPredict cexSnap 30 1 (-1000) (2/5) (3/5) 20).1.head?.getD
            ⟨"", "", "", 0, 0, 0, 0, 0, 0, 0, 0, 0⟩).predicted_bikes)) :=
  (rebalance_targets_floor cexPredict cexSnap 30 1 (-1000) (2/5) (3/5) 20 _).1

/-! ## C5 -/

/-- C5 counterexample: two stations with identical state, station "B" listed
before station "A" in the snapshot. Their recommendations tie on priority and
on need_add, and the returned supply list keeps them in encounter order
["B", "A"]: there is no station_id-ascending tie-break (which would have
produced ["A", "B"]). -/
theorem rebalance_no_sno_tiebreak_cex :
    ((compute_rebalance cexPredict cexSnap2 30 1 (-1000) (2/5) (3/5) 20).1.map
        RebRec.sno) = ["B", "A"] ∧
      (["B", "A"] : List String) ≠ ["A", "B"] := by decide

/-- C5 (amended): each recommendation list returned by `compute_rebalance` is
sorted descending by priority and then by need_add (resp. need_remove)
magnitude, and is truncated to at most topK entries; rows that tie on both
keys are in no specified order (no station_id tie-break is applied). -/
theorem rebalance_sorted_truncated (predict : String → PredictOutcome)
    (snapshot_df : Snapshot) (minutes_ahead empty_threshold full_threshold : ℤ)
    (target_low_ratio target_high_ratio : ℚ) (top_k : ℕ) :
    (compute_rebalance predict snapshot_df minutes_ahead empty_threshold
        full_threshold target_low_ratio target_high_ratio top_k).1.Sorted recGE ∧
      (compute_rebalance predict snapshot_df minutes_ahead empty_threshold
        full_threshold target_low_ratio target_high_ratio top_k).2.Sorted recGE ∧
      (compute_rebalance predict snapshot_df minutes_ahead empty_threshold
        full_threshold target_low_ratio target_high_ratio top_k).1.length ≤ top_k ∧
      (compute_rebalance predict snapshot_df minutes_ahead empty_threshold
        full_threshold target_low_ratio target_high_ratio top_k).2.length ≤ top_k := by
  obtain ⟨rows, hshape⟩ := compute_rebalance_shape predict snapshot_df minutes_ahead
    empty_threshold full_threshold target_low_ratio target_high_ratio top_k
  rw [hshape]
  exact ⟨(sortTruncate_sorted _ _).1, (sortTruncate_sorted _ _).1,
    (sortTruncate_sorted _ _).2, (sortTruncate_sorted _ _).2⟩

/-! ## C9 -/

theorem supplyRow_none_of_error {predict : String → PredictOutcome}
    {minutes_ahead empty_threshold : ℤ} {target_low_ratio : ℚ} {r : SnapRow}
    (h : predict_ok (predict r.sno) = false) :
    supplyRow predict minutes_ahead empty_threshold target_low_ratio r = none := by
  unfold supplyRow
  cases hp : predict r.sno with
  | error e => rfl
  | ok v => rw [hp] at h; exact absurd h (by simp [predict_ok])

theorem removeRow_none_of_error {predict : String → PredictOutcome}
    {minutes_ahead full_threshold : ℤ} {target_high_ratio : ℚ} {r : SnapRow}
    (h : predict_ok (predict r.sno) = false) :
    removeRow predict minutes_ahead full_threshold target_high_ratio r = none := by
  unfold removeRow
  cases hp : predict r.sno with
  | error e => rfl
  | ok v => rw [hp] at h; exact absurd h (by simp [predict_ok])

theorem filterMap_filter_of_none {α β : Type} (f : α → Option β) (p : α → Bool)
    (l : List α) (hf : ∀ a, p a = false → f a = none) :
    (l.filter p).filterMap f = l.filterMap f := by
  induction l with
  | nil => rfl
  | cons x xs ih =>
    by_cases hx : p x
    · rw [List.filter_cons_of_pos hx, List.filterMap_cons, List.filterMap_cons]
      cases f x <;> simp [ih]
    · rw [List.filter_cons_of_neg hx, List.filterMap_cons,
        hf x (Bool.eq_false_iff.2 hx)]
      exact ih

/-- C9: if the per-station `predict_demand` call raises for some stations,
`compute_rebalance` skips exactly those stations — its output on any snapshot
equals its output on the snapshot restricted to the stations whose predict
call succeeds, so every remaining station is still processed and the caught
exception never reaches the caller (the embedded advisor is total: the
`try/except continue` absorbs every `.error`). -/
theorem compute_rebalance_skips_failing_stations (predict : String → PredictOutcome)
    (snapshot_df : Snapshot) (minutes_ahead empty_threshold full_threshold : ℤ)
    (target_low_ratio target_high_ratio : ℚ) (top_k : ℕ) :
    compute_rebalance predict snapshot_df minutes_ahead empty_threshold full_threshold
        target_low_ratio target_high_ratio top_k =
      compute_rebalance predict (keepOkRows predict snapshot_df) minutes_ahead
        empty_threshold full_threshold target_low_ratio target_high_ratio top_k := by
  have hcomm : (snapshot_df.rows.filter (fun r => predict_ok (predict r.sno))).filter
        (fun r => decide (0 < r.rent + r.ret)) =
      (snapshot_df.rows.filter (fun r => decide (0 < r.rent + r.ret))).filter
        (fun r => predict_ok (predict r.sno)) := by
    rw [List.filter_filter, List.filter_filter]
    exact List.filter_congr (fun a _ => Bool.and_comm _ _)
  have hA : ∀ l : List SnapRow,
      (l.filter (fun r => predict_ok (predict r.sno))).filterMap
          (supplyRow predict minutes_ahead empty_threshold target_low_ratio) =
        l.filterMap (supplyRow predict minutes_ahead empty_threshold target_low_ratio) :=
    fun l => filterMap_filter_of_none _ _ _ (fun a ha => supplyRow_none_of_error ha)
  have hB : ∀ l : List SnapRow,
      (l.filter (fun r => predict_ok (predict r.sno))).filterMap
          (removeRow predict minutes_ahead full_threshold target_high_ratio) =
        l.filterMap (removeRow predict minutes_ahead full_threshold target_high_ratio) :=
    fun l => filterMap_filter_of_none _ _ _ (fun a ha => removeRow_none_of_error ha)
  unfold compute_rebalance keepOkRows
  dsimp only
  by_cases h1 : snapshot_df.rows.isEmpty
  · have h0 : snapshot_df.rows = [] := List.isEmpty_iff.1 h1
    rw [h0]
    simp
  · rw [if_neg h1]
    by_cases h1' : (snapshot_df.rows.filter (fun r => predict_ok (predict r.sno))).isEmpty
    · rw [if_pos h1']
      have hallfail : ∀ r ∈ snapshot_df.rows, ¬ (predict_ok (predict r.sno) = true) :=
        List.filter_eq_nil_iff.1 (List.isEmpty_iff.1 h1')
      by_cases h2 : required_cols.all (fun c => snapshot_df.cols.contains c)
      · rw [if_neg (not_not_intro h2)]
        by_cases h3 : (snapshot_df.rows.filter (fun r => decide (0 < r.rent + r.ret))).isEmpty
        · rw [if_pos h3]
        · rw [if_neg h3]
          have hs : (snapshot_df.rows.filter
                (fun r => decide (0 < r.rent + r.ret))).filterMap
              (supplyRow predict minutes_ahead empty_threshold target_low_ratio) = [] := by
            refine List.filterMap_eq_nil_iff.2 fun a ha => supplyRow_none_of_error ?_
            simpa using hallfail a (List.mem_filter.1 ha).1
          have hr : (snapshot_df.rows.filter
                (fun r => decide (0 < r.rent + r.ret))).filterMap
              (removeRow predict minutes_ahead full_threshold target_high_ratio) = [] := by
            refine List.filterMap_eq_nil_iff.2 fun a ha => removeRow_none_of_error ?_
            simpa using hallfail a (List.mem_filter.1 ha).1
          rw [hs, hr]
          simp [sortTruncate]
      · rw [if_pos h2]
    · rw [if_neg h1']
      by_cases h2 : required_cols.all (fun c => snapshot_df.cols.contains c)
      · rw [if_neg (not_not_intro h2), if_neg (not_not_intro h2)]
        rw [hcomm]
        by_cases h3 : (snapshot_df.rows.filter (fun r => decide (0 < r.rent + r.ret))).isEmpty
        · have h3' : ((snapshot_df.rows.filter
              (fun r => decide (0 < r.rent + r.ret))).filter
                (fun r => predict_ok (predict r.sno))).isEmpty := by
            rw [List.isEmpty_iff] at h3 ⊢
            rw [h3]
            rfl
          rw [if_pos h3, if_pos h3']
        · by_cases h3' : ((snapshot_df.rows.filter
              (fun r => decide (0 < r.rent + r.ret))).filter
                (fun r => predict_ok (predict r.sno))).isEmpty
          · rw [if_neg h3, if_pos h3']
            have hempty : (snapshot_df.rows.filter
                (fun r => decide (0 < r.rent + r.ret))).filter
                  (fun r => predict_ok (predict r.sno)) = [] := List.isEmpty_iff.1 h3'
            have hs : (snapshot_df.rows.filter
                  (fun r => decide (0 < r.rent + r.ret))).filterMap
                (supplyRow predict minutes_ahead empty_threshold target_low_ratio) = [] := by
              rw [← hA, hempty, List.filterMap_nil]
            have hr : (snapshot_df.rows.filter
                  (fun r => decide (0 < r.rent + r.ret))).filterMap
                (removeRow predict minutes_ahead full_threshold target_high_ratio) = [] := by
              rw [← hB, hempty, List.filterMap_nil]
            rw [hs, hr]
            simp [sortTruncate]
          · rw [if_neg h3, if_neg h3', hA, hB]
      · rw [if_pos h2, if_pos h2]

/-! ## C10 -/

/-- C10: on an empty snapshot, a snapshot missing one of the required columns
{sno, sna, sarea, rent, return_count}, or a snapshot in which no station has
positive capacity, `compute_rebalance` returns a pair of empty lists (the
embedded advisor is total, so no exception is raised). -/
theorem compute_rebalance_degenerate (predict : String → PredictOutcome)
    (snapshot_df : Snapshot) (minutes_ahead empty_threshold full_threshold : ℤ)
    (target_low_ratio target_high_ratio : ℚ) (top_k : ℕ)
    (h : snapshot_df.rows = [] ∨
        required_cols.all (fun c => snapshot_df.cols.contains c) = false ∨
        ∀ r ∈ snapshot_df.rows, r.rent + r.ret ≤ 0) :
    compute_rebalance predict snapshot_df minutes_ahead empty_threshold full_threshold
        target_low_ratio target_high_ratio top_k = ([], []) := by
  unfold compute_rebalance
  rcases h with h | h | h
  · rw [if_pos (by simp [h])]
  · by_cases h1 : snapshot_df.rows.isEmpty
    · rw [if_pos h1]
    · rw [if_neg h1, if_pos (by rw [h]; simp)]
  · by_cases h1 : snapshot_df.rows.isEmpty
    · rw [if_pos h1]
    · rw [if_neg h1]
      by_cases h2 : required_cols.all (fun c => snapshot_df.cols.contains c)
      · rw [if_neg (not_not_intro h2)]
        have h3 : (snapshot_df.rows.filter (fun r => decide (0 < r.rent + r.ret))).isEmpty := by
          rw [List.isEmpty_iff, List.filter_eq_nil_iff]
          intro a ha
          simpa using not_lt.2 (h a ha)
        rw [if_pos h3]
      · rw [if_pos h2]

/-- C10 witness: the empty snapshot with all required columns present. -/
theorem compute_rebalance_degenerate_witness :
    compute_rebalance cexPredict ⟨required_cols, []⟩ 30 1 1 (2/5) (3/5) 20 = ([], []) :=
  compute_rebalance_degenerate cexPredict ⟨required_cols, []⟩ 30 1 1 (2/5) (3/5) 20
    (Or.inl rfl)

/-! ## C6 -/

/-- C6 counterexample: a table holding two rows of the same station tied at
the maximal collection_time. `get_current_status` returns both rows — two rows
for one distinct station_id, not "exactly one row per distinct station_id". -/
theorem get_current_status_tie_cex :
    (get_current_status tieTable).length = 2 ∧
      (tieTable.map DbRow.sno).dedup = ["S"] := by decide

/-- C6 (amended): `get_current_status` returns exactly the rows whose
collection_timestamp is maximal for their station (so one row per station
whenever the maximum is attained once, but every tied row when it is not);
and after appending a batch whose station-`b.sno` part is exactly the row `b`,
with `b`'s timestamp strictly newer than every prior row of that station, the
rows returned for that station are exactly `[b]`. -/
theorem get_current_status_latest_rows (tbl batch : List DbRow) (b : DbRow)
    (hbatch : batch.filter (fun q => q.sno == b.sno) = [b])
    (hfresh : ∀ q ∈ tbl, q.sno = b.sno → q.collection_time < b.collection_time) :
    (∀ r, r ∈ get_current_status tbl ↔
        (r ∈ tbl ∧ ∀ q ∈ tbl, q.sno = r.sno → q.collection_time ≤ r.collection_time)) ∧
      (get_current_status (tbl ++ batch)).filter (fun r => r.sno == b.sno) = [b] := by
  constructor
  · intro r
    simp [get_current_status, List.mem_filter]
  · have hbmem : b ∈ batch := by
      have hb1 : b ∈ batch.filter (fun q => q.sno == b.sno) := by
        rw [hbatch]
        exact List.mem_singleton_self b
      exact (List.mem_filter.1 hb1).1
    unfold get_current_status
    rw [List.filter_filter, List.filter_append]
    have htbl : tbl.filter (fun a => (a.sno == b.sno) &&
        decide (∀ q ∈ tbl ++ batch, q.sno = a.sno →
          q.collection_time ≤ a.collection_time)) = [] := by
      rw [List.filter_eq_nil_iff]
      intro a ha hcontra
      rw [Bool.and_eq_true] at hcontra
      obtain ⟨hbeq, hdec⟩ := hcontra
      have hs : a.sno = b.sno := by simpa using hbeq
      have hall := of_decide_eq_true hdec
      have hble : b.collection_time ≤ a.collection_time :=
        hall b (List.mem_append.2 (Or.inr hbmem)) hs.symm
      exact absurd hble (not_le.2 (hfresh a ha hs))
    have hbat : batch.filter (fun a => (a.sno == b.sno) &&
        decide (∀ q ∈ tbl ++ batch, q.sno = a.sno →
          q.collection_time ≤ a.collection_time)) = [b] := by
      have hswap : batch.filter (fun a => (a.sno == b.sno) &&
          decide (∀ q ∈ tbl ++ batch, q.sno = a.sno →
            q.collection_time ≤ a.collection_time)) =
          batch.filter (fun a =>
            decide (∀ q ∈ tbl ++ batch, q.sno = a.sno →
              q.collection_time ≤ a.collection_time) && (a.sno == b.sno)) :=
        List.filter_congr (fun a _ => Bool.and_comm _ _)
      rw [hswap, ← List.filter_filter, hbatch]
      have hPb : (∀ q ∈ tbl ++ batch, q.sno = b.sno →
          q.collection_time ≤ b.collection_time) := by
        intro q hq hsno
        rcases List.mem_append.1 hq with hq' | hq'
        · exact le_of_lt (hfresh q hq' hsno)
        · have hqf : q ∈ batch.filter (fun q => q.sno == b.sno) :=
            List.mem_filter.2 ⟨hq', by simp [hsno]⟩
          rw [hbatch] at hqf
          rw [List.mem_singleton.1 hqf]
      simp [hPb]
      intro q hq hsno
      exact hPb q (List.mem_append.2 hq) hsno
    rw [htbl, hbat]
    rfl

/-- C6 witness: appending a two-row batch to a one-row table; station "S"
appears once in the batch with a strictly newer timestamp, and the returned
"S" rows are exactly that batch row. -/
theorem get_current_status_latest_rows_witness :
    (∀ r, r ∈ get_current_status [(⟨0, "S", 1, 1, 1⟩ : DbRow)] ↔
        (r ∈ [(⟨0, "S", 1, 1, 1⟩ : DbRow)] ∧ ∀ q ∈ [(⟨0, "S", 1, 1, 1⟩ : DbRow)],
          q.sno = r.sno → q.collection_time ≤ r.collection_time)) ∧
      (get_current_status ([(⟨0, "S", 1, 1, 1⟩ : DbRow)] ++
          [⟨1, "S", 2, 5, 5⟩, ⟨2, "T", 9, 0, 0⟩])).filter
        (fun r => r.sno == (⟨1, "S", 2, 5, 5⟩ : DbRow).sno) = [⟨1, "S", 2, 5, 5⟩] :=
  get_current_status_latest_rows [⟨0, "S", 1, 1, 1⟩] [⟨1, "S", 2, 5, 5⟩, ⟨2, "T", 9, 0, 0⟩]
    ⟨1, "S", 2, 5, 5⟩ (by decide) (by decide)

/-! ## C7 -/

/-- C7 counterexample: on a table where the cutoff removes one row, the
Python function returns `None` (it only prints the rowcount, here 1) — it does
not return the count of rows removed, which would be `some 1 ≠ none`. -/
theorem cleanup_old_data_returns_nothing_cex :
    (cleanup_old_data 100 5 retentionTable).2 = none ∧
      cleanup_removed_count 100 5 retentionTable = 1 ∧
      (none : Option ℕ) ≠ some 1 := by decide

/-- C7 (amended): `cleanup_old_data(maxAgeDays)` deletes exactly the rows whose
collection_timestamp is older than now − maxAgeDays and is idempotent (a second
run deletes nothing); the count of rows removed is logged, but the function
returns no value. In particular `cleanup_old_data(5)` removes a row dated
now − 6 and keeps a row dated now − 1. -/
theorem cleanup_old_data_retention (now days : ℤ) (tbl : List DbRow) (r6 r1 : DbRow)
    (h6 : r6.collection_time = now - 6) (h1 : r1.collection_time = now - 1)
    (hr1 : r1 ∈ tbl) :
    (∀ r, r ∈ (cleanup_old_data now days tbl).1 ↔
        (r ∈ tbl ∧ ¬ r.collection_time < now - days)) ∧
      cleanup_old_data now days (cleanup_old_data now days tbl).1 =
        ((cleanup_old_data now days tbl).1, none) ∧
      cleanup_removed_count now days (cleanup_old_data now days tbl).1 = 0 ∧
      r6 ∉ (cleanup_old_data now 5 tbl).1 ∧
      r1 ∈ (cleanup_old_data now 5 tbl).1 := by
  refine ⟨?_, ?_, ?_, ?_, ?_⟩
  · intro r
    simp [cleanup_old_data, List.mem_filter]
  · unfold cleanup_old_data
    dsimp only
    rw [List.filter_filter, List.filter_congr (fun a _ => Bool.and_self _)]
  · unfold cleanup_removed_count cleanup_old_data
    dsimp only
    have hnil : ((tbl.filter (fun r => decide (¬ r.collection_time < now - days))).filter
        (fun r => decide (r.collection_time < now - days))) = [] := by
      rw [List.filter_filter, List.filter_eq_nil_iff]
      intro a ha hcontra
      rw [Bool.and_eq_true] at hcontra
      obtain ⟨hx, hy⟩ := hcontra
      exact (of_decide_eq_true hy) (of_decide_eq_true hx)
    rw [hnil, List.length_nil]
  · intro hmem
    have hkeep := (List.mem_filter.1 hmem).2
    have hnot : ¬ r6.collection_time < now - 5 := of_decide_eq_true hkeep
    exact hnot (by rw [h6]; omega)
  · exact List.mem_filter.2 ⟨hr1, decide_eq_true (by rw [h1]; omega)⟩

/-- C7 witness: the retention scenario at now = 100 with a 6-day-old row "X"
and a 1-day-old row "Y". -/
theorem cleanup_old_data_retention_witness :
    (∀ r, r ∈ (cleanup_old_data 100 5 retentionTable).1 ↔
        (r ∈ retentionTable ∧ ¬ r.collection_time < 100 - 5)) ∧
      cleanup_old_data 100 5 (cleanup_old_data 100 5 retentionTable).1 =
        ((cleanup_old_data 100 5 retentionTable).1, none) ∧
      cleanup_removed_count 100 5 (cleanup_old_data 100 5 retentionTable).1 = 0 ∧
      (⟨0, "X", 94, 1, 1⟩ : DbRow) ∉ (cleanup_old_data 100 5 retentionTable).1 ∧
      (⟨1, "Y", 99, 2, 2⟩ : DbRow) ∈ (cleanup_old_data 100 5 retentionTable).1 :=
  cleanup_old_data_retention 100 5 retentionTable ⟨0, "X", 94, 1, 1⟩ ⟨1, "Y", 99, 2, 2⟩
    (by decide) (by decide) (by decide)

/-! ## C8 -/

/-- C8: the collector contradicts its own contract here. `fetch_data`'s
docstring promises "returns None on failure, does not raise", and the spec says
an unrecovered failure never raises past the caller; but on a 200 response
whose JSON body is not an array of objects (for instance `[1]`, or any
JSON-object body, whose iteration yields its key strings) the attribute access
`s.get(...)` sits outside every try block and raises `AttributeError` out of
`fetch_data` and `job`. The empty-batch half of the claim does hold: `job`
persists nothing when the record list is empty, since `fetch_data` already
returns `None` for it. -/
theorem fetch_data_raises_on_nonobject_body :
    fetch_data crashingResponse = Except.error PyExc.attributeError ∧
      job crashingResponse = Except.error PyExc.attributeError := by decide
